import Mathlib

/-!
# Verification of the arbok benchmark job generator and runner

Shallow embedding of `arbok/bench.py`: the `Benchmark` class (config-file
creation, job-script generation, queue submission), the job runner
(`get_preprocessor`, `run_job`) and the command-line entry point `cli`.

External collaborators (the OpenML tracking service, the AutoML wrappers,
the queue command, the filesystem) are modelled explicitly: the tracking
service as an oracle structure, side effects as an explicit trace of events,
and the filesystem as an association list from file names to contents.
Python dictionaries are association lists that preserve insertion order,
matching CPython semantics; `json.dump`/`json.load` round-trip JSON values,
so JSON files store `Json` values directly.
-/

/-- JSON values, as produced and consumed by `json.dump` / `json.load`.
Objects are ordered association lists, matching Python dict semantics. -/
inductive Json where
  | null : Json
  | bool : Bool → Json
  | num : Int → Json
  | str : String → Json
  | arr : List Json → Json
  | obj : List (String × Json) → Json

/-- Field lookup on a JSON object (`cfg[key]` succeeding iff the key is
present and the value is an object). -/
def jsonGet (j : Json) (k : String) : Option Json :=
  match j with
  | .obj entries => List.lookup k entries
  | _ => none

/-- Python `dict` update with a single key (`d.update(\x7bk: v\x7d)`): replace
the value in place if the key is present, otherwise append the new pair at
the end. Also models overwriting a file in a directory. -/
def setKey {α : Type} : List (String × α) → String → α → List (String × α)
  | [], k, v => [(k, v)]
  | p :: rest, k, v => if p.1 = k then (k, v) :: rest else p :: setKey rest k v

/-- Lexicographic comparison of strings by code points, the order Python
uses to compare `str` values (and hence the order of `sort_keys=True`). -/
def strLe (a b : String) : Bool := decide (a.data ≤ b.data)

/-- Insert one key/value pair into a key-sorted association list. -/
def insertSorted (p : String × Json) : List (String × Json) → List (String × Json)
  | [] => [p]
  | q :: rest => if strLe p.1 q.1 then p :: q :: rest else q :: insertSorted p rest

/-- Sort an association list by key (the effect of `sort_keys=True` in
`json.dump`). -/
def sortByKey (l : List (String × Json)) : List (String × Json) :=
  l.foldr insertSorted []

/-- The observable effect of `json.dump(obj, f, indent=4, sort_keys=True)`
inside `create_config_file`: the target path, the written JSON value (with
its object keys sorted) and the serialization parameters. -/
structure ConfigWrite where
  path : String
  content : Json
  indent : Nat
  sortKeys : Bool

/-- `Benchmark.create_config_file(file_name, tpot, autosklearn, wrapper)`:
dumps the object with keys `tpot`, `autosklearn`, `wrapper` using
`indent=4, sort_keys=True` and returns `file_name`. -/
def create_config_file (file_name : String) (tpot autosklearn wrapper : Json) :
    String × ConfigWrite :=
  (file_name,
   { path := file_name
     content := Json.obj (sortByKey
       [("tpot", tpot), ("autosklearn", autosklearn), ("wrapper", wrapper)])
     indent := 4
     sortKeys := true })

/-- The `Benchmark` instance attributes set by `__init__`. -/
structure Benchmark where
  headers : String
  python_interpreter : String
  jobs_dir : String
  config_file : String

/-- `Benchmark.__init__`: stores the four attributes, and creates the
directory `jobs_dir` iff it does not already exist (the second component
reports the directory created, if any). -/
def benchmarkInit (headers python_interpreter jobs_dir config_file : String)
    (dirExists : Bool) : Benchmark × Option String :=
  ({ headers := headers
     python_interpreter := python_interpreter
     jobs_dir := jobs_dir
     config_file := config_file },
   if dirExists then none else some jobs_dir)

/-- Script filesystem together with the chronological sequence of file
names written (each `open(..., "w+")` + write appends one entry). -/
structure SFS where
  files : List (String × String)
  writes : List String

/-- Writing a whole file with mode `w+`: truncate/overwrite the file and
record the write in the trace. -/
def sfsWrite (fs : SFS) (name content : String) : SFS :=
  { files := setKey fs.files name content
    writes := fs.writes ++ [name] }

/-- The name of the job script written by `create_job`: the literal
directory `jobs/` (not `self.jobs_dir`), then `clf_name`, `_`, the task id
and `.sh`, exactly as the f-string in the source builds it. -/
def jobFileName (clf_name task_id : String) : String :=
  "jobs/" ++ clf_name ++ "_" ++ task_id ++ ".sh"

/-- The full contents written by `create_job`: the caller-supplied header
block, a newline, then the single invocation line assembled by the six
`f.write` calls. -/
def jobFileContent (b : Benchmark) (task_id clf_name preprocessor log : String) :
    String :=
  b.headers ++ "\n" ++
  (b.python_interpreter ++ " -m arbok ") ++
  ("--classifier " ++ clf_name ++ " ") ++
  ("--task-id " ++ task_id ++ " ") ++
  ("--config " ++ b.config_file ++ " ") ++
  ("--preprocessor " ++ preprocessor ++ " ") ++
  ("--log " ++ log ++ " ")

/-- `Benchmark.create_job(task_id, clf_name, preprocessor, log)`: writes the
script file (overwriting silently) and returns `self`. -/
def create_job (b : Benchmark) (fs : SFS)
    (task_id clf_name preprocessor log : String) : SFS × Benchmark :=
  (sfsWrite fs (jobFileName clf_name task_id)
    (jobFileContent b task_id clf_name preprocessor log), b)

/-- `Benchmark.create_jobs(tasks, classifiers)`: `classifiers=None` defaults
to `["tpot", "autosklearn"]`; for each classifier (outer loop) and each task
(inner loop) calls `create_job` with its defaults `preprocessor="default"`,
`log="log.json"`; returns `self`. -/
def create_jobs (b : Benchmark) (fs : SFS) (tasks : List String)
    (classifiers : Option (List String)) : SFS × Benchmark :=
  let clfs := classifiers.getD ["tpot", "autosklearn"]
  (clfs.foldl
    (fun acc clf => tasks.foldl
      (fun acc2 task_id => (create_job b acc2 task_id clf "default" "log.json").1)
      acc)
    fs, b)

/-- `Benchmark.submit_jobs()`: lists the literal directory `jobs/`, keeps
regular files, and invokes `qsub jobs/<file>` once per file in listing
order; returns the command lines issued and `self`. The directory listing
and the regular-file test are oracles for `os.listdir` / `os.path.isfile`. -/
def submit_jobs (b : Benchmark) (listdir : String → List String)
    (isfile : String → Bool) : List (List String) × Benchmark :=
  let files := (listdir "jobs/").filter (fun f => isfile ("jobs/" ++ f))
  (files.map (fun file => ["qsub", "jobs/" ++ file]), b)

/-- Observable side effects of the job runner. `setApiKey` is the
process-global assignment `openml.config.apikey = apikey`; the remaining
constructors are the tracking-service interactions and the log-file
write. -/
inductive Eff where
  | setApiKey : String → Eff
  | getTask : String → Eff
  | getDataset : String → Eff
  | getData : String → Eff
  | runModelOnTask : String → Eff
  | publish : Eff
  | writeFile : String → Eff
  deriving DecidableEq, Repr

/-- Whether an effect is a tracking-service call (a network interaction
with the OpenML server), as opposed to the local API-key assignment or a
local file write. -/
def Eff.isTracking : Eff → Bool
  | .getTask _ => true
  | .getDataset _ => true
  | .getData _ => true
  | .runModelOnTask _ => true
  | .publish => true
  | _ => false

/-- Whether an effect is the process-global API-key assignment. -/
def Eff.isSetKey : Eff → Bool
  | .setApiKey _ => true
  | _ => false

/-- `ConditionalImputer(categorical_features=..., strategy="mean",
strategy_nominal="most_frequent")` as constructed by `get_preprocessor`. -/
structure ConditionalImputer where
  categorical_features : List Bool
  strategy : String
  strategy_nominal : String

/-- `OneHotEncoder(categorical_features=..., handle_unknown="ignore",
sparse=False)` as constructed by `get_preprocessor`. -/
structure OneHotEncoder where
  categorical_features : List Bool
  handle_unknown : String
  sparse : Bool

/-- The two-stage `make_pipeline(imputer, encoder)` result. -/
structure Pipeline where
  imputer : ConditionalImputer
  encoder : OneHotEncoder

/-- Oracle for the OpenML tracking service: the per-feature categorical
indicator a task's dataset reports, the run id assigned when a run is
published, and the server base URL from `openml.config.server`. -/
structure OpenML where
  categoricalIndicator : String → List Bool
  runId : String → Nat
  server : String

/-- Python truthiness of an optional string: `None` and `""` are falsy. -/
def pyTruthy : Option String → Bool
  | none => false
  | some s => s ≠ ""

/-- `Benchmark.get_preprocessor(task_id, name)`: `None` short-circuits to
`None`; otherwise the task, its dataset and the categorical indicator are
fetched (three tracking calls), the trailing indicator entry is dropped,
and `"default"` yields the imputer+encoder pipeline while any other name
raises `ValueError`. Returns the result and the effect trace. -/
def get_preprocessor (env : OpenML) (task_id : String) (name : Option String) :
    Except String (Option Pipeline) × List Eff :=
  match name with
  | none => (Except.ok none, [])
  | some n =>
    let categorical := (env.categoricalIndicator task_id).dropLast
    let trace := [Eff.getTask task_id, Eff.getDataset task_id, Eff.getData task_id]
    if n = "default" then
      (Except.ok (some
        { imputer :=
            { categorical_features := categorical
              strategy := "mean"
              strategy_nominal := "most_frequent" }
          encoder :=
            { categorical_features := categorical
              handle_unknown := "ignore"
              sparse := false } }), trace)
    else
      (Except.error ("Preprocessor " ++ n ++ " unknown"), trace)

/-- The AutoML wrapper constructed by `run_job`: the resolved preprocessor
plus the keyword-expanded option mappings. -/
inductive Clf where
  | tpotW : Option Pipeline → Json → Json → Clf
  | autosklearnW : Option Pipeline → Json → Json → Clf

/-- `Benchmark.run_job(clf_name, task_id, wrapper_config, tpot_config,
autosklearn_config, preprocessor, apikey)`: sets the API key iff `apikey`
is truthy, resolves the preprocessor, dispatches on `clf_name` (raising
`ValueError` on anything other than `"tpot"` / `"autosklearn"`), fetches
the task, runs the model on it, publishes the run, and returns the run id
with the result URL. The second component is the chronological effect
trace. -/
def run_job (env : OpenML) (clf_name task_id : String)
    (wrapper_config tpot_config autosklearn_config : Json)
    (preprocessor : Option String) (apikey : Option String) :
    Except String (Nat × String) × List Eff :=
  let keyTrace := if pyTruthy apikey then [Eff.setApiKey (apikey.getD "")] else []
  let pres := get_preprocessor env task_id preprocessor
  match pres.1 with
  | .error e => (.error e, keyTrace ++ pres.2)
  | .ok prep =>
    if clf_name = "tpot" then
      let _clf := Clf.tpotW prep wrapper_config tpot_config
      let rid := env.runId task_id
      (.ok (rid, env.server ++ "/json/run/" ++ toString rid),
       keyTrace ++ pres.2 ++
         [Eff.getTask task_id, Eff.runModelOnTask task_id, Eff.publish])
    else if clf_name = "autosklearn" then
      let _clf := Clf.autosklearnW prep wrapper_config autosklearn_config
      let rid := env.runId task_id
      (.ok (rid, env.server ++ "/json/run/" ++ toString rid),
       keyTrace ++ pres.2 ++
         [Eff.getTask task_id, Eff.runModelOnTask task_id, Eff.publish])
    else
      (.error ("Classifier name " ++ clf_name ++ " unknown"), keyTrace ++ pres.2)

/-- The log-storing tail of `cli`: `data = \x7b\x7d`, replaced by the parsed log
file when it exists, then `data.update(\x7bid: output\x7d)` (the integer run id
becomes the string key `json.dump` writes) and the whole object is
rewritten. A present log file that is not a JSON object makes
`data.update` fail. -/
def storeOutput (prev : Option Json) (rid : Nat) (output : String) :
    Except String Json :=
  match prev with
  | none => .ok (Json.obj (setKey [] (toString rid) (Json.str output)))
  | some (Json.obj entries) =>
      .ok (Json.obj (setKey entries (toString rid) (Json.str output)))
  | some _ => .error "AttributeError: update"

/-- The click options of the command-line entry point, with `none`
standing for an absent `--task-id` / `--apikey`. -/
structure CliArgs where
  classifier : String
  task_id : Option String
  config : String
  preprocessor : String
  apikey : Option String
  log : String

/-- The JSON filesystem the runner sees: parsed contents of the config and
log files by name. -/
abbrev JFS : Type := List (String × Json)

/-- The command-line entry point `cli`: raises `ClickException` (a
user-facing message and exit code 1, modelled as `Except.error`) when
`--task-id` is falsy or the config file is missing; otherwise loads the
config, looks up its three keys, delegates to `run_job`, and merges the
run record into the log file. Returns the resulting filesystem and the
effect trace. -/
def cli (env : OpenML) (fs : JFS) (a : CliArgs) : Except String JFS × List Eff :=
  if !(pyTruthy a.task_id) then (.error "Please specify a task id.", [])
  else
    match List.lookup a.config fs with
    | none => (.error "The configuration file does not exist.", [])
    | some cfg =>
      match jsonGet cfg "tpot" with
      | none => (.error "KeyError: tpot", [])
      | some tpot =>
      match jsonGet cfg "autosklearn" with
      | none => (.error "KeyError: autosklearn", [])
      | some autosklearn =>
      match jsonGet cfg "wrapper" with
      | none => (.error "KeyError: wrapper", [])
      | some wrapper =>
        let r := run_job env a.classifier (a.task_id.getD "") wrapper tpot
          autosklearn (some a.preprocessor) a.apikey
        match r.1 with
        | .error e => (.error e, r.2)
        | .ok (rid, output) =>
          match storeOutput (List.lookup a.log fs) rid output with
          | .error e => (.error e, r.2)
          | .ok newLog => (.ok (setKey fs a.log newLog), r.2 ++ [Eff.writeFile a.log])

/-- A concrete tracking-service oracle used to instantiate theorems at
specific inputs. -/
def sampleEnv : OpenML :=
  { categoricalIndicator := fun _ => [true, false, true]
    runId := fun _ => 7
    server := "https://www.openml.org/api/v1" }

/-- Looking up a key after `setKey` on that key yields the new value. -/
theorem lookup_setKey_self {α : Type} (d : List (String × α)) (k : String) (v : α) :
    List.lookup k (setKey d k v) = some v := by
  induction d with
  | nil => simp [setKey]
  | cons p rest ih =>
    obtain ⟨pk, pv⟩ := p
    by_cases h : pk = k
    · subst h; simp [setKey]
    · have hb : (k == pk) = false := beq_eq_false_iff_ne.mpr (Ne.symm h)
      simp [setKey, h, List.lookup, hb, ih]

/-- The inner loop of `create_jobs` appends one write per task, in task
order, for a fixed classifier. -/
theorem create_jobs_inner_writes (b : Benchmark) (clf : String)
    (tasks : List String) (acc : SFS) :
    (tasks.foldl
      (fun acc2 task_id => (create_job b acc2 task_id clf "default" "log.json").1)
      acc).writes
      = acc.writes ++ tasks.map (fun t => jobFileName clf t) := by
  induction tasks generalizing acc with
  | nil => simp
  | cons t ts ih =>
    rw [List.foldl_cons, ih]
    simp [create_job, sfsWrite, List.append_assoc]

/-- The writes of `create_jobs` are the classifier-major sequence of job
file names. -/
theorem create_jobs_writes_eq (b : Benchmark) (fs : SFS)
    (tasks clfs : List String) :
    (create_jobs b fs tasks (some clfs)).1.writes
      = fs.writes ++ clfs.flatMap (fun c => tasks.map (fun t => jobFileName c t)) := by
  have main : ∀ (cs : List String) (fs : SFS),
      (cs.foldl
        (fun acc clf => tasks.foldl
          (fun acc2 task_id => (create_job b acc2 task_id clf "default" "log.json").1)
          acc)
        fs).writes
        = fs.writes ++ cs.flatMap (fun c => tasks.map (fun t => jobFileName c t)) := by
    intro cs
    induction cs with
    | nil => intro fs; simp
    | cons c cs ih =>
      intro fs
      rw [List.foldl_cons, ih, create_jobs_inner_writes]
      simp [List.append_assoc]
  simpa [create_jobs] using main clfs fs

/-- The classifier-major job-name listing has one entry per
(classifier, task) pair. -/
theorem jobNames_length (tasks clfs : List String) :
    (clfs.flatMap (fun c => tasks.map (fun t => jobFileName c t))).length
      = clfs.length * tasks.length := by
  induction clfs with
  | nil => simp
  | cons c cs ih => simp [ih, Nat.succ_mul, Nat.add_comm]

/-- C2: for every list of task identifiers and every list of classifier
names, `create_jobs` performs exactly N times M file writes, one per
(classifier, task) pair in classifier-major order, each at the path
`jobs/` followed by the classifier name, an underscore, the task id and
`.sh`, and returns `self`. -/
theorem create_jobs_classifier_major (b : Benchmark) (fs : SFS)
    (tasks clfs : List String) :
    (create_jobs b fs tasks (some clfs)).2 = b
    ∧ (create_jobs b fs tasks (some clfs)).1.writes
        = fs.writes ++ clfs.flatMap (fun c => tasks.map (fun t => jobFileName c t))
    ∧ (clfs.flatMap (fun c => tasks.map (fun t => jobFileName c t))).length
        = clfs.length * tasks.length :=
  ⟨rfl, create_jobs_writes_eq b fs tasks clfs, jobNames_length tasks clfs⟩

/-- C3: merging the run record (2, "urlB") into an existing log object
with the single entry "1" mapping to "urlA" yields the object with the
entries "1" mapping to "urlA" and "2" mapping to "urlB"; an absent log
file acts as the empty object, so the result holds exactly the new
record. -/
theorem cli_log_merge :
    storeOutput (some (Json.obj [("1", Json.str "urlA")])) 2 "urlB"
      = Except.ok (Json.obj [("1", Json.str "urlA"), ("2", Json.str "urlB")])
    ∧ ∀ (rid : Nat) (output : String),
        storeOutput none rid output
          = Except.ok (Json.obj [(toString rid, Json.str output)]) :=
  ⟨rfl, fun _ _ => rfl⟩

/-- C4: `create_config_file` returns the given path and writes one JSON
object with `indent=4` and sorted keys; the written object has exactly the
three keys `autosklearn`, `tpot`, `wrapper` (in sorted order), and looking
each key up returns exactly the mapping that was passed in. -/
theorem create_config_file_roundtrip (path : String) (t a w : Json) :
    (create_config_file path t a w).1 = path
    ∧ (create_config_file path t a w).2.path = path
    ∧ (create_config_file path t a w).2.indent = 4
    ∧ (create_config_file path t a w).2.sortKeys = true
    ∧ (create_config_file path t a w).2.content
        = Json.obj [("autosklearn", a), ("tpot", t), ("wrapper", w)]
    ∧ jsonGet (create_config_file path t a w).2.content "tpot" = some t
    ∧ jsonGet (create_config_file path t a w).2.content "autosklearn" = some a
    ∧ jsonGet (create_config_file path t a w).2.content "wrapper" = some w :=
  ⟨rfl, rfl, rfl, rfl, rfl, rfl, rfl, rfl⟩

/-- C7: re-invoking `create_job` for the same (classifier, task) pair
silently overwrites the job file — after the second call the file holds
exactly the contents built from the latest preprocessor and log values,
and its invocation line carries the latest preprocessor flag. -/
theorem create_job_overwrite (b : Benchmark) (fs : SFS)
    (task_id clf p1 l1 p2 l2 : String) :
    List.lookup (jobFileName clf task_id)
        ((create_job b (create_job b fs task_id clf p1 l1).1 task_id clf p2 l2).1.files)
      = some (jobFileContent b task_id clf p2 l2)
    ∧ jobFileContent b task_id clf p2 l2
        = (b.headers ++ "\n" ++ (b.python_interpreter ++ " -m arbok ") ++
            ("--classifier " ++ clf ++ " ") ++ ("--task-id " ++ task_id ++ " ") ++
            ("--config " ++ b.config_file ++ " "))
          ++ ("--preprocessor " ++ p2 ++ " ") ++ ("--log " ++ l2 ++ " ") :=
  ⟨lookup_setKey_self _ _ _, rfl⟩

/-- C10: the `jobs_dir` constructor argument is only used to create a
directory at construction time; `create_job` writes under the literal
directory `jobs/` and `submit_jobs` lists and submits from the literal
directory `jobs/`, both independent of `jobs_dir`. -/
theorem jobs_dir_unused_after_init (h py jd1 jd2 cf : String) (fs : SFS)
    (task_id clf p l : String) (ld : String → List String) (isf : String → Bool) :
    (benchmarkInit h py jd1 cf false).2 = some jd1
    ∧ (benchmarkInit h py jd1 cf true).2 = none
    ∧ jobFileName clf task_id = "jobs/" ++ clf ++ "_" ++ task_id ++ ".sh"
    ∧ (create_job ⟨h, py, jd1, cf⟩ fs task_id clf p l).1
        = (create_job ⟨h, py, jd2, cf⟩ fs task_id clf p l).1
    ∧ (submit_jobs ⟨h, py, jd1, cf⟩ ld isf).1
        = (submit_jobs ⟨h, py, jd2, cf⟩ ld isf).1
    ∧ (submit_jobs ⟨h, py, jd1, cf⟩ ld isf).1
        = ((ld "jobs/").filter (fun f => isf ("jobs/" ++ f))).map
            (fun f => ["qsub", "jobs/" ++ f]) :=
  ⟨rfl, rfl, rfl, rfl, rfl, rfl⟩

/-- C5: `get_preprocessor` returns `None` (with no effects) when the name
is `None`, and raises the unknown-preprocessor `ValueError` for every
non-null name other than `"default"`. -/
theorem get_preprocessor_none_and_unknown (env : OpenML) (task_id n : String)
    (h : n ≠ "default") :
    get_preprocessor env task_id none = (Except.ok none, [])
    ∧ (get_preprocessor env task_id (some n)).1
        = Except.error ("Preprocessor " ++ n ++ " unknown") := by
  refine ⟨rfl, ?_⟩
  simp [get_preprocessor, h]

/-- Witness for `get_preprocessor_none_and_unknown` at name `"bogus"`. -/
theorem get_preprocessor_none_and_unknown_witness :
    get_preprocessor sampleEnv "1" none = (Except.ok none, [])
    ∧ (get_preprocessor sampleEnv "1" (some "bogus")).1
        = Except.error ("Preprocessor " ++ "bogus" ++ " unknown") :=
  get_preprocessor_none_and_unknown sampleEnv "1" "bogus" (by decide)

/-- C6: when the dataset behind a task reports a categorical indicator of
length k, `get_preprocessor(task_id, "default")` succeeds with a pipeline
whose imputer and encoder both carry the first k - 1 indicator entries
(the trailing label entry is discarded), so the stored indicator count is
k - 1. -/
theorem get_preprocessor_default_drops_label (env : OpenML) (task_id : String)
    (k : Nat) (h : (env.categoricalIndicator task_id).length = k) :
    ∃ p : Pipeline,
      (get_preprocessor env task_id (some "default")).1 = Except.ok (some p)
      ∧ p.imputer.categorical_features = (env.categoricalIndicator task_id).dropLast
      ∧ p.encoder.categorical_features = (env.categoricalIndicator task_id).dropLast
      ∧ p.encoder.categorical_features
          = (env.categoricalIndicator task_id).take (k - 1)
      ∧ p.imputer.categorical_features.length = k - 1
      ∧ p.encoder.categorical_features.length = k - 1 := by
  subst h
  refine ⟨_, rfl, rfl, rfl, ?_, ?_, ?_⟩
  · simp [List.dropLast_eq_take]
  · simp
  · simp

/-- Witness for `get_preprocessor_default_drops_label` on the sample
oracle, whose indicator has length 3. -/
theorem get_preprocessor_default_drops_label_witness :
    ∃ p : Pipeline,
      (get_preprocessor sampleEnv "1" (some "default")).1 = Except.ok (some p)
      ∧ p.imputer.categorical_features = (sampleEnv.categoricalIndicator "1").dropLast
      ∧ p.encoder.categorical_features = (sampleEnv.categoricalIndicator "1").dropLast
      ∧ p.encoder.categorical_features
          = (sampleEnv.categoricalIndicator "1").take (3 - 1)
      ∧ p.imputer.categorical_features.length = 3 - 1
      ∧ p.encoder.categorical_features.length = 3 - 1 :=
  get_preprocessor_default_drops_label sampleEnv "1" 3 (by decide)

/-- C1 (amended): with a null preprocessor name, `run_job` on a classifier
name other than `"tpot"` / `"autosklearn"` fails with the
unknown-classifier `ValueError` and its trace holds no tracking-service
call; with the preprocessor name `"default"`, the same failure is raised
but only after the three dataset-resolution tracking calls made while
building the preprocessor. -/
theorem run_job_unknown_classifier (env : OpenML) (clf task_id : String)
    (wc tc ac : Json) (apikey : Option String)
    (h1 : clf ≠ "tpot") (h2 : clf ≠ "autosklearn") :
    ((run_job env clf task_id wc tc ac none apikey).1
        = Except.error ("Classifier name " ++ clf ++ " unknown")
      ∧ (run_job env clf task_id wc tc ac none apikey).2.all
          (fun e => !e.isTracking) = true)
    ∧ ((run_job env clf task_id wc tc ac (some "default") apikey).1
        = Except.error ("Classifier name " ++ clf ++ " unknown")
      ∧ (run_job env clf task_id wc tc ac (some "default") apikey).2.filter
          Eff.isTracking
          = [Eff.getTask task_id, Eff.getDataset task_id, Eff.getData task_id]) := by
  have hkey : ((if pyTruthy apikey then [Eff.setApiKey (apikey.getD "")] else []) :
      List Eff).all (fun e => !e.isTracking) = true := by
    cases hp : pyTruthy apikey <;> simp [Eff.isTracking]
  have hkeyf : ((if pyTruthy apikey then [Eff.setApiKey (apikey.getD "")] else []) :
      List Eff).filter Eff.isTracking = [] := by
    cases hp : pyTruthy apikey <;> simp [Eff.isTracking]
  refine ⟨⟨?_, ?_⟩, ?_, ?_⟩ <;>
    simp [run_job, get_preprocessor, h1, h2, hkey, hkeyf, Eff.isTracking,
      List.filter_append]

/-- Witness for `run_job_unknown_classifier` at classifier `"other"`. -/
theorem run_job_unknown_classifier_witness :
    ((run_job sampleEnv "other" "2" (Json.obj []) (Json.obj []) (Json.obj [])
        none none).1 = Except.error ("Classifier name " ++ "other" ++ " unknown")
      ∧ (run_job sampleEnv "other" "2" (Json.obj []) (Json.obj []) (Json.obj [])
          none none).2.all (fun e => !e.isTracking) = true)
    ∧ ((run_job sampleEnv "other" "2" (Json.obj []) (Json.obj []) (Json.obj [])
        (some "default") none).1
          = Except.error ("Classifier name " ++ "other" ++ " unknown")
      ∧ (run_job sampleEnv "other" "2" (Json.obj []) (Json.obj []) (Json.obj [])
          (some "default") none).2.filter Eff.isTracking
          = [Eff.getTask "2", Eff.getDataset "2", Eff.getData "2"]) :=
  run_job_unknown_classifier sampleEnv "other" "2" (Json.obj []) (Json.obj [])
    (Json.obj []) none (by decide) (by decide)

/-- C1 as frozen is false on the code: at task id "1" with the standard
preprocessor name "default", `run_job` on the unknown classifier "other"
does fail with the unknown-classifier error, but its trace already holds
the three dataset-resolution tracking calls issued by `get_preprocessor`
before the dispatch. -/
theorem run_job_other_tracking_counterexample :
    (run_job sampleEnv "other" "1" (Json.obj []) (Json.obj []) (Json.obj [])
        (some "default") none).1 = Except.error "Classifier name other unknown"
    ∧ (run_job sampleEnv "other" "1" (Json.obj []) (Json.obj []) (Json.obj [])
        (some "default") none).2
        = [Eff.getTask "1", Eff.getDataset "1", Eff.getData "1"]
    ∧ (run_job sampleEnv "other" "1" (Json.obj []) (Json.obj []) (Json.obj [])
        (some "default") none).2.any Eff.isTracking = true :=
  ⟨rfl, rfl, rfl⟩

/-- C9 (amended): whenever a non-empty API key is supplied to `run_job`,
the very first recorded effect is the process-global key assignment, so
the key is set before any tracking-service network call. -/
theorem run_job_apikey_set_first (env : OpenML) (clf task_id : String)
    (wc tc ac : Json) (prep : Option String) (k : String) (h : k ≠ "") :
    ((run_job env clf task_id wc tc ac prep (some k)).2).head?
      = some (Eff.setApiKey k) := by
  have hk : pyTruthy (some k) = true := by simp [pyTruthy, h]
  rcases hgp : (get_preprocessor env task_id prep).1 with e | pr
  · simp [run_job, hk, hgp]
  · by_cases hc1 : clf = "tpot"
    · simp [run_job, hk, hgp, hc1]
    · by_cases hc2 : clf = "autosklearn" <;> simp [run_job, hk, hgp, hc1, hc2]

/-- Witness for `run_job_apikey_set_first` with the key "KEY". -/
theorem run_job_apikey_set_first_witness :
    ((run_job sampleEnv "tpot" "1" (Json.obj []) (Json.obj []) (Json.obj [])
        none (some "KEY")).2).head? = some (Eff.setApiKey "KEY") :=
  run_job_apikey_set_first sampleEnv "tpot" "1" (Json.obj []) (Json.obj [])
    (Json.obj []) none "KEY" (by decide)

/-- C9 as frozen is false on the code: `run_job` tests the supplied key
for Python truthiness, so an execution supplied with the empty-string API
key makes tracking-service network calls without ever assigning the
key. -/
theorem run_job_empty_apikey_counterexample :
    pyTruthy (some "") = false
    ∧ (run_job sampleEnv "tpot" "1" (Json.obj []) (Json.obj []) (Json.obj [])
        (some "default") (some "")).2.any Eff.isTracking = true
    ∧ (run_job sampleEnv "tpot" "1" (Json.obj []) (Json.obj []) (Json.obj [])
        (some "default") (some "")).2.any Eff.isSetKey = false :=
  ⟨rfl, rfl, rfl⟩

/-- C8: the entry point raises `ClickException` (user-facing message,
exit code 1) with an empty effect trace — no tracking call, no log
write — when `--task-id` is falsy, and likewise when the task id is
present but the config file does not exist. -/
theorem cli_early_errors (env : OpenML) (fs : JFS) (a : CliArgs) :
    (pyTruthy a.task_id = false →
      cli env fs a = (Except.error "Please specify a task id.", []))
    ∧ (pyTruthy a.task_id = true → List.lookup a.config fs = none →
      cli env fs a = (Except.error "The configuration file does not exist.", [])) := by
  constructor
  · intro h
    simp [cli, h]
  · intro h1 h2
    simp [cli, h1, h2]

/-- Witness for `cli_early_errors`: an absent task id, and a present task
id with an empty filesystem. -/
theorem cli_early_errors_witness :
    cli sampleEnv []
        { classifier := "tpot", task_id := none, config := "config.json",
          preprocessor := "default", apikey := none, log := "log.json" }
      = (Except.error "Please specify a task id.", [])
    ∧ cli sampleEnv []
        { classifier := "tpot", task_id := some "5", config := "config.json",
          preprocessor := "default", apikey := none, log := "log.json" }
      = (Except.error "The configuration file does not exist.", []) :=
  ⟨(cli_early_errors sampleEnv [] _).1 rfl,
   (cli_early_errors sampleEnv [] _).2 rfl rfl⟩
